import Mathlib

/-!
Verification of the BuckUtils PDF utility (src/buckutils/app.py) against its
natural-language specification.

The Python module is shallowly embedded: pypdf page objects are abstract
identifiers (`PageObject`), the file system and the pypdf reader are an oracle
`FileSystem` mapping a path to the list of page objects of that file (`none`
models `PdfReader` raising), text extraction is an oracle returning an
`ExtractResult` (`failure` models `extract_text` raising, `noText` models it
returning `None`), and a Ghostscript subprocess invocation is an oracle
`GsRunner` from the argument vector to a `GsExec` outcome (`raise` models
`subprocess.run` raising).
-/

namespace BuckUtils

/-- Abstract identity of a pypdf `PageObject`. -/
abbrev PageObject := Nat

/-- The composite key (source file path, zero-based page index). -/
abbrev PageKey := String × Nat

/-- Oracle for `PdfReader(path).pages`; `none` models the constructor raising. -/
abbrev FileSystem := String → Option (List PageObject)

/-- Outcome of `page.extract_text()`: a string, `None`, or an exception. -/
inductive ExtractResult where
  | text (s : String)
  | noText
  | failure
deriving DecidableEq, Repr

/-- Oracle for `page.extract_text()`. -/
abbrev Extractor := PageObject → ExtractResult

/-- Outcome of `subprocess.run(cmd, ...)` for a Ghostscript invocation:
`raise` models the call raising; `done rc ex err` models a completed process
with return code `rc`, output-file existence `ex`, and stderr `err`. -/
inductive GsExec where
  | raise
  | done (returncode : Int) (outputExists : Bool) (stderr : String)
deriving DecidableEq, Repr

/-- Oracle for running a subprocess from an argument vector. -/
abbrev GsRunner := List String → GsExec

/-- Python `Path(s).name`: the final path component. -/
def pathName (s : String) : String :=
  (s.splitOn "/").getLastD s

/-- Python `Path(s).stem`: the final path component without its last suffix
(a lone leading dot is not a suffix). -/
def pathStem (s : String) : String :=
  match (pathName s).splitOn "." with
  | [] => pathName s
  | [_] => pathName s
  | ["", _] => pathName s
  | parts => String.intercalate "." parts.dropLast

/-- Python `str.split()` on a character list: split on runs of whitespace,
dropping empty pieces.  `acc` holds the current word reversed. -/
def pySplitChars : List Char → List Char → List (List Char)
  | [], acc => if acc.isEmpty then [] else [acc.reverse]
  | c :: cs, acc =>
    if c.isWhitespace then
      if acc.isEmpty then pySplitChars cs [] else acc.reverse :: pySplitChars cs []
    else
      pySplitChars cs (c :: acc)

/-- Python `str.split()` (no separator argument). -/
def pySplit (s : String) : List String :=
  (pySplitChars s.data []).map fun cs => String.mk cs

/-- Python `" ".join(text.split())`. -/
def cleanText (s : String) : String :=
  String.intercalate " " (pySplit s)

/-- The fixed placeholder used when a page yields no preview text. -/
def placeholderText : String := "No text preview available for this page."

/-- Model of `page.extract_text() or ""` with the surrounding `try/except` that maps
an exception to `""`. -/
def extractedText (extract : Extractor) (page : PageObject) : String :=
  match extract page with
  | .text s => s
  | .noText => ""
  | .failure => ""

/-- A single PDF page with preview metadata (the `PDFPage` dataclass). -/
structure PDFPage where
  source_path : String
  page_index : Nat
  label : String
  page : PageObject
  preview : String
  preview_image_path : Option String
deriving DecidableEq, Repr

/-- The composite key of a page entry. -/
def PDFPage.key (p : PDFPage) : PageKey := (p.source_path, p.page_index)

/-- The temp-file path `buckutils_preview_{stem}_{page_index}.png` under the
temp directory. -/
def previewOutputPath (tmpDir filePath : String) (pageIndex : Nat) : String :=
  tmpDir ++ "/buckutils_preview_" ++ pathStem filePath ++ "_" ++ toString pageIndex ++ ".png"

/-- The Ghostscript argument vector built by `_generate_preview_for_page`. -/
def buildGsPreviewCmd (gsPath filePath : String) (pageIndex : Nat) (outputPath : String) :
    List String :=
  [gsPath,
   "-dBATCH",
   "-dNOPAUSE",
   "-sDEVICE=png16m",
   "-dSAFER",
   "-dFirstPage=" ++ toString (pageIndex + 1),
   "-dLastPage=" ++ toString (pageIndex + 1),
   "-r50",
   "-sOutputFile=" ++ outputPath,
   filePath]

/-- The text-preview half of `_generate_preview_for_page`: open the reader,
fetch the page, extract and clean its text; any failure leaves the
placeholder in place. -/
def workerPreviewText (fs : FileSystem) (extract : Extractor)
    (filePath : String) (pageIndex : Nat) : String :=
  match fs filePath with
  | none => placeholderText
  | some readerPages =>
    match readerPages[pageIndex]? with
    | none => placeholderText
    | some page =>
      let cleaned := cleanText (extractedText extract page)
      if cleaned ≠ "" then
        if cleaned.length > 240 then cleaned.take 240 ++ "…" else cleaned
      else placeholderText

/-- Model of `_generate_preview_for_page`: returns
`(file_path, page_index, preview_text, preview_image_path)`.  The Ghostscript
half runs only when `gs_path` is truthy, and reports an image path only when
the process returns 0 and the output file exists. -/
def _generate_preview_for_page (fs : FileSystem) (extract : Extractor)
    (gsRun : GsRunner) (tmpDir : String)
    (task : String × Nat × Option String) : String × Nat × String × Option String :=
  let (filePath, pageIndex, gsPath) := task
  let previewText := workerPreviewText fs extract filePath pageIndex
  let previewImagePath : Option String :=
    match gsPath with
    | none => none
    | some gp =>
      if gp = "" then none
      else
        let outputPath := previewOutputPath tmpDir filePath pageIndex
        match gsRun (buildGsPreviewCmd gp filePath pageIndex outputPath) with
        | .raise => none
        | .done rc ex _ => if rc = 0 ∧ ex then some outputPath else none
  (filePath, pageIndex, previewText, previewImagePath)

/-- Result of a combining operation: the returned boolean, the page sequence
written to the output file by our `PdfWriter` (`none` when our code wrote no
file), whether a Ghostscript combine subprocess was invoked (Ghostscript
itself writes the file in that backend), and the dialog messages shown. -/
structure CombineResult where
  ok : Bool
  written : Option (List PageObject)
  gsInvoked : Bool
  messages : List String
deriving DecidableEq, Repr

namespace PDFCombiner

/-- Model of `PDFCombiner.combine_with_pypdf2`: read every input file, append all of
its pages to the writer, then write the output.  A reader raising
(`fs path = none`) or the write failing (`writeOk = false`) is caught and
reported, and our code writes no file. -/
def combine_with_pypdf2 (fs : FileSystem) (writeOk : Bool)
    (input_files : List String) : CombineResult :=
  match input_files.mapM fs with
  | none =>
    { ok := false, written := none, gsInvoked := false,
      messages := ["Failed to combine PDFs"] }
  | some pagesPerFile =>
    if writeOk then
      { ok := true, written := some pagesPerFile.flatten, gsInvoked := false, messages := [] }
    else
      { ok := false, written := none, gsInvoked := false,
        messages := ["Failed to combine PDFs"] }

/-- The Ghostscript argument vector built by `combine_with_ghostscript`. -/
def buildGsCombineCmd (gs_path : String) (input_files : List String)
    (output_file : String) : List String :=
  [gs_path,
   "-dBATCH",
   "-dNOPAUSE",
   "-dSAFER",
   "-sDEVICE=pdfwrite",
   "-dPDFSETTINGS=/prepress",
   "-sOutputFile=" ++ output_file] ++ input_files

/-- Model of `PDFCombiner.combine_with_ghostscript`: run Ghostscript over the inputs;
a non-zero return code or an exception is reported and yields `False`. -/
def combine_with_ghostscript (gsRun : GsRunner) (input_files : List String)
    (output_file gs_path : String) : CombineResult :=
  match gsRun (buildGsCombineCmd gs_path input_files output_file) with
  | .raise =>
    { ok := false, written := none, gsInvoked := true,
      messages := ["Failed to run Ghostscript"] }
  | .done rc _ stderr =>
    if rc ≠ 0 then
      { ok := false, written := none, gsInvoked := true,
        messages := ["Ghostscript error: " ++ stderr] }
    else
      { ok := true, written := none, gsInvoked := true, messages := [] }

/-- Model of `PDFCombiner.combine`: empty input warns and fails; otherwise pypdf when
available, else Ghostscript when found, else an error dialog and `False`.
`hasPypdf` models `HAS_PYPDF` and `gsFind` the result of `find_ghostscript`. -/
def combine (hasPypdf : Bool) (gsFind : Option String) (fs : FileSystem)
    (gsRun : GsRunner) (writeOk : Bool) (input_files : List String)
    (output_file : String) : CombineResult :=
  if input_files.isEmpty then
    { ok := false, written := none, gsInvoked := false,
      messages := ["No files selected to combine!"] }
  else if hasPypdf then
    combine_with_pypdf2 fs writeOk input_files
  else
    match gsFind with
    | some gs_path => combine_with_ghostscript gsRun input_files output_file gs_path
    | none =>
      { ok := false, written := none, gsInvoked := false,
        messages := ["No PDF library found!"] }

/-- Model of `PDFCombiner.combine_pages`: empty input warns and fails; without pypdf an
error dialog and `False`; otherwise the writer receives the `page` object of
each entry in list order and writes the output. -/
def combine_pages (hasPypdf : Bool) (writeOk : Bool) (pages : List PDFPage) :
    CombineResult :=
  if pages.isEmpty then
    { ok := false, written := none, gsInvoked := false,
      messages := ["No pages selected to combine!"] }
  else if !hasPypdf then
    { ok := false, written := none, gsInvoked := false,
      messages := ["Page-level combining requires pypdf."] }
  else if writeOk then
    { ok := true, written := some (pages.map PDFPage.page), gsInvoked := false,
      messages := [] }
  else
    { ok := false, written := none, gsInvoked := false,
      messages := ["Failed to combine pages"] }

end PDFCombiner

/-- The mutable state of `BuckUtilsApp` relevant to page bookkeeping:
`self.pages` and `self._open_readers`. -/
structure AppState where
  pages : List PDFPage
  openReaders : List (List PageObject)
deriving DecidableEq, Repr

namespace BuckUtilsApp

/-- Model of `BuckUtilsApp._build_preview_text`: extract, clean, fall back to the
placeholder when empty, truncate at 240 characters otherwise. -/
def _build_preview_text (extract : Extractor) (page : PageObject) : String :=
  let cleaned := cleanText (extractedText extract page)
  if cleaned = "" then placeholderText
  else if cleaned.length > 240 then cleaned.take 240 ++ "…" else cleaned

/-- The entries appended by the `for idx, page in enumerate(reader.pages)`
loop of `_import_pdf_pages`: pages whose key is not already present. -/
def importNewPages (file_path : String) (existing : List PageKey)
    (readerPages : List PageObject) : List PDFPage :=
  (readerPages.enum.filter fun ip => decide ((file_path, ip.1) ∉ existing)).map
    fun ip =>
      { source_path := file_path, page_index := ip.1,
        label := pathName file_path ++ " - Page " ++ toString (ip.1 + 1),
        page := ip.2, preview := "Generating preview…", preview_image_path := none }

/-- Result of `_import_pdf_pages`: the new app state, the error dialogs shown,
and the preview tasks queued for background generation. -/
structure ImportResult where
  state : AppState
  errors : List String
  tasks : List (String × Nat × Option String)
deriving DecidableEq, Repr

/-- Model of `BuckUtilsApp._import_pdf_pages`: without pypdf an error dialog and no
change; a reader that raises is reported and skipped; otherwise the reader is
retained, pages with new keys are appended, and one preview task is queued
per appended page. -/
def _import_pdf_pages (hasPypdf : Bool) (fs : FileSystem) (gs_path : Option String)
    (st : AppState) (file_path : String) : ImportResult :=
  if !hasPypdf then
    { state := st, errors := ["Page previews require pypdf."], tasks := [] }
  else
    match fs file_path with
    | none =>
      { state := st, errors := ["Unable to open " ++ pathName file_path], tasks := [] }
    | some readerPages =>
      let existing := st.pages.map PDFPage.key
      let newPages := importNewPages file_path existing readerPages
      { state := { pages := st.pages ++ newPages,
                   openReaders := st.openReaders ++ [readerPages] },
        errors := [],
        tasks := newPages.map fun p => (p.source_path, p.page_index, gs_path) }

/-- Model of `BuckUtilsApp._apply_preview_result`: update the first entry matching the
key and stop; also returns the paths appended to `self._preview_files`
(a truthy image path of a matched entry). -/
def _apply_preview_result (pages : List PDFPage) (file_path : String)
    (page_index : Nat) (preview : String) (preview_image_path : Option String) :
    List PDFPage × List String :=
  match pages with
  | [] => ([], [])
  | p :: rest =>
    if p.source_path = file_path ∧ p.page_index = page_index then
      ({ p with preview := preview, preview_image_path := preview_image_path } :: rest,
       match preview_image_path with
       | some s => if s = "" then [] else [s]
       | none => [])
    else
      let (rest', files) := _apply_preview_result rest file_path page_index preview
        preview_image_path
      (p :: rest', files)

/-- Python `l[i], l[j] = l[j], l[i]`: both reads happen before both writes. -/
def swapEntries (l : List PDFPage) (i j : Nat) : List PDFPage :=
  match l[i]?, l[j]? with
  | some a, some b => (l.set i b).set j a
  | _, _ => l

/-- Model of `BuckUtilsApp._move_up`: no selection or first entry selected is a no-op;
otherwise swap the selected entry with its predecessor. -/
def _move_up (pages : List PDFPage) (selected : List Nat) : List PDFPage :=
  match selected with
  | [] => pages
  | idx :: _ =>
    if idx = 0 then pages
    else swapEntries pages idx (idx - 1)

/-- Model of `BuckUtilsApp._move_down`: no selection or last entry selected is a no-op;
otherwise swap the selected entry with its successor. -/
def _move_down (pages : List PDFPage) (selected : List Nat) : List PDFPage :=
  match selected with
  | [] => pages
  | idx :: _ =>
    if idx = pages.length - 1 then pages
    else swapEntries pages idx (idx + 1)

/-- Model of `BuckUtilsApp._on_drag_motion`: with no drag in progress, or a target
equal to the start or out of range, nothing changes; otherwise swap the start
entry with the target entry and move the drag start to the target.  `target`
is `listbox.nearest(event.y)`, which may be negative. -/
def _on_drag_motion (pages : List PDFPage) (dragStart : Option Nat) (target : Int) :
    List PDFPage × Option Nat :=
  match dragStart with
  | none => (pages, none)
  | some s =>
    if target = (s : Int) ∨ target < 0 ∨ target ≥ (pages.length : Int) then
      (pages, some s)
    else
      (swapEntries pages s target.toNat, some target.toNat)

end BuckUtilsApp

/-- The subprocess completed with return code 0 and the output file exists. -/
def gsSucceeded : GsExec → Prop
  | .raise => False
  | .done rc ex _ => rc = 0 ∧ ex = true

/-- An extraction outcome that yields no text: a string of whitespace only
(including the empty string), a `None` result, or an exception. -/
def noTextOutcome : ExtractResult → Prop
  | .text s => ∀ c ∈ s.data, c.isWhitespace
  | .noText => True
  | .failure => True

theorem apply_preview_result_no_match (pages : List PDFPage) (f : String)
    (i : Nat) (pv : String) (img : Option String)
    (h : ((f, i) : PageKey) ∉ pages.map PDFPage.key) :
    (BuckUtilsApp._apply_preview_result pages f i pv img).1 = pages := by
  induction pages with
  | nil => rfl
  | cons p rest ih =>
    simp only [List.map_cons, List.mem_cons, not_or] at h
    have hp : ¬(p.source_path = f ∧ p.page_index = i) := by
      rintro ⟨h1, h2⟩
      exact h.1 (by simp [PDFPage.key, h1, h2])
    simp [BuckUtilsApp._apply_preview_result, hp, ih h.2]

theorem map_preview_update_no_match (pages : List PDFPage) (f : String)
    (i : Nat) (pv : String) (img : Option String)
    (h : ((f, i) : PageKey) ∉ pages.map PDFPage.key) :
    pages.map (fun p => if p.source_path = f ∧ p.page_index = i then
      { p with preview := pv, preview_image_path := img } else p) = pages := by
  induction pages with
  | nil => rfl
  | cons p rest ih =>
    simp only [List.map_cons, List.mem_cons, not_or] at h
    have hp : ¬(p.source_path = f ∧ p.page_index = i) := by
      rintro ⟨h1, h2⟩
      exact h.1 (by simp [PDFPage.key, h1, h2])
    simp only [List.map_cons, if_neg hp]
    rw [ih h.2]

theorem importNewPages_map_key (f : String) (ex : List PageKey)
    (rps : List PageObject) :
    (BuckUtilsApp.importNewPages f ex rps).map PDFPage.key =
      (rps.enum.filter fun ip => decide ((f, ip.1) ∉ ex)).map
        fun ip => ((f, ip.1) : PageKey) := by
  unfold BuckUtilsApp.importNewPages
  rw [List.map_map]
  rfl

theorem importNewPages_key_nodup (f : String) (ex : List PageKey)
    (rps : List PageObject) :
    ((BuckUtilsApp.importNewPages f ex rps).map PDFPage.key).Nodup := by
  rw [importNewPages_map_key]
  have heq : (fun ip : Nat × PageObject => ((f, ip.1) : PageKey)) =
      (fun k : Nat => ((f, k) : PageKey)) ∘ Prod.fst := rfl
  rw [heq, ← List.map_map]
  apply List.Nodup.map
  · intro a b hab
    simpa using hab
  · exact List.Nodup.sublist ((List.filter_sublist _).map Prod.fst)
      (List.nodup_enum_map_fst rps)

theorem importNewPages_key_not_in_existing (f : String) (ex : List PageKey)
    (rps : List PageObject) :
    ∀ k ∈ (BuckUtilsApp.importNewPages f ex rps).map PDFPage.key, k ∉ ex := by
  rw [importNewPages_map_key]
  intro k hk
  simp only [List.mem_map, List.mem_filter] at hk
  obtain ⟨ip, ⟨_, hdec⟩, hkey⟩ := hk
  subst hkey
  simpa using hdec

theorem importNewPages_nil_of_all_present (f : String) (ex : List PageKey)
    (rps : List PageObject)
    (hall : ∀ i, i < rps.length → ((f, i) : PageKey) ∈ ex) :
    BuckUtilsApp.importNewPages f ex rps = [] := by
  unfold BuckUtilsApp.importNewPages
  have hfil : (rps.enum.filter fun ip => decide ((f, ip.1) ∉ ex)) = [] := by
    apply List.filter_eq_nil_iff.mpr
    intro ip hip
    have hget : rps[ip.1]? = some ip.2 := List.mem_enum_iff_getElem?.mp hip
    have hlt : ip.1 < rps.length := (List.getElem?_eq_some.mp hget).1
    simp [hall ip.1 hlt]
  rw [hfil]
  rfl

theorem cons_set_perm {α : Type} :
    ∀ (xs : List α) (k : Nat) (a b : α), xs[k]? = some b →
      (b :: xs.set k a).Perm (a :: xs) := by
  intro xs
  induction xs with
  | nil => intro k a b h; simp at h
  | cons x t ih =>
    intro k a b h
    cases k with
    | zero =>
      simp only [List.getElem?_cons_zero, Option.some.injEq] at h
      subst h
      simpa using List.Perm.swap a x t
    | succ n =>
      simp only [List.getElem?_cons_succ] at h
      have h1 : (b :: x :: t.set n a).Perm (x :: b :: t.set n a) :=
        List.Perm.swap x b (t.set n a)
      have h2 : (x :: b :: t.set n a).Perm (x :: a :: t) := (ih n a b h).cons x
      have h3 : (x :: a :: t).Perm (a :: x :: t) := List.Perm.swap a x t
      simpa using (h1.trans h2).trans h3

theorem set_set_perm {α : Type} :
    ∀ (l : List α) (i j : Nat) (a b : α), l[i]? = some a → l[j]? = some b →
      ((l.set i b).set j a).Perm l := by
  intro l
  induction l with
  | nil => intro i j a b hi _; simp at hi
  | cons x t ih =>
    intro i j a b hi hj
    cases i with
    | zero =>
      simp only [List.getElem?_cons_zero, Option.some.injEq] at hi
      subst hi
      cases j with
      | zero =>
        simp only [List.getElem?_cons_zero, Option.some.injEq] at hj
        subst hj
        simp
      | succ m =>
        simp only [List.getElem?_cons_succ] at hj
        simpa using cons_set_perm t m x b hj
    | succ n =>
      simp only [List.getElem?_cons_succ] at hi
      cases j with
      | zero =>
        simp only [List.getElem?_cons_zero, Option.some.injEq] at hj
        subst hj
        simpa using cons_set_perm t n x a hi
      | succ m =>
        simp only [List.getElem?_cons_succ] at hj
        simpa using (ih n m a b hi hj).cons x

theorem swapEntries_perm (l : List PDFPage) (i j : Nat) :
    (BuckUtilsApp.swapEntries l i j).Perm l := by
  unfold BuckUtilsApp.swapEntries
  cases hi : l[i]? with
  | none => exact List.Perm.refl l
  | some a =>
    cases hj : l[j]? with
    | none => exact List.Perm.refl l
    | some b => exact set_set_perm l i j a b hi hj

theorem pySplitChars_nil_of_all_ws :
    ∀ l : List Char, (∀ c ∈ l, c.isWhitespace) → pySplitChars l [] = [] := by
  intro l
  induction l with
  | nil => intro _; rfl
  | cons c cs ih =>
    intro h
    have hc : c.isWhitespace := h c (List.mem_cons_self c cs)
    have hcs : ∀ x ∈ cs, x.isWhitespace := fun x hx => h x (List.mem_cons_of_mem c hx)
    simp [pySplitChars, hc, ih hcs]

theorem cleanText_eq_empty_of_all_ws (s : String)
    (h : ∀ c ∈ s.data, c.isWhitespace) : cleanText s = "" := by
  simp [cleanText, pySplit, pySplitChars_nil_of_all_ws s.data h, String.intercalate]

theorem cleanText_extracted_eq_empty (extract : Extractor) (page : PageObject)
    (h : noTextOutcome (extract page)) :
    cleanText (extractedText extract page) = "" := by
  unfold extractedText
  cases he : extract page with
  | text s =>
    rw [he] at h
    exact cleanText_eq_empty_of_all_ws s h
  | noText => rfl
  | failure => rfl

end BuckUtils

open BuckUtils

/-- C1: for every non-empty list of pages, `PDFCombiner.combine_pages` (with
pypdf available and the write succeeding) returns `True` and writes exactly
the page objects of the input entries in list order: the `n`-th written page
is the `page` of the `n`-th input entry. -/
theorem combine_pages_writes_in_input_order (pages : List PDFPage)
    (hne : pages ≠ []) :
    (PDFCombiner.combine_pages true true pages).ok = true ∧
    (PDFCombiner.combine_pages true true pages).written = some (pages.map PDFPage.page) ∧
    ∀ n : Nat, (pages.map PDFPage.page)[n]? = (pages[n]?).map PDFPage.page := by
  have h : pages.isEmpty = false := by
    cases pages with
    | nil => exact absurd rfl hne
    | cons p rest => rfl
  refine ⟨?_, ?_, ?_⟩
  · simp [PDFCombiner.combine_pages, h]
  · simp [PDFCombiner.combine_pages, h]
  · intro n
    simp [List.getElem?_map]

/-- Witness for C1 at a concrete two-page list. -/
theorem combine_pages_writes_in_input_order_check :
    (([⟨"a.pdf", 0, "a.pdf - Page 1", 7, "p", none⟩,
       ⟨"b.pdf", 0, "b.pdf - Page 1", 9, "q", none⟩] : List PDFPage) ≠ []) ∧
    ((PDFCombiner.combine_pages true true
        [⟨"a.pdf", 0, "a.pdf - Page 1", 7, "p", none⟩,
         ⟨"b.pdf", 0, "b.pdf - Page 1", 9, "q", none⟩]).ok = true ∧
     (PDFCombiner.combine_pages true true
        [⟨"a.pdf", 0, "a.pdf - Page 1", 7, "p", none⟩,
         ⟨"b.pdf", 0, "b.pdf - Page 1", 9, "q", none⟩]).written =
       some (([⟨"a.pdf", 0, "a.pdf - Page 1", 7, "p", none⟩,
               ⟨"b.pdf", 0, "b.pdf - Page 1", 9, "q", none⟩] : List PDFPage).map PDFPage.page) ∧
     ∀ n : Nat,
       (([⟨"a.pdf", 0, "a.pdf - Page 1", 7, "p", none⟩,
          ⟨"b.pdf", 0, "b.pdf - Page 1", 9, "q", none⟩] : List PDFPage).map PDFPage.page)[n]? =
         (([⟨"a.pdf", 0, "a.pdf - Page 1", 7, "p", none⟩,
            ⟨"b.pdf", 0, "b.pdf - Page 1", 9, "q", none⟩] : List PDFPage)[n]?).map PDFPage.page) :=
  ⟨by decide, combine_pages_writes_in_input_order _ (by decide)⟩

/-- C2: on an empty input list both `PDFCombiner.combine` and
`PDFCombiner.combine_pages` return `False`, write nothing, and invoke no
external writer, for every environment. -/
theorem combine_empty_input_fails_without_output (hasPypdf hasPypdf' : Bool)
    (gsFind : Option String) (fs : FileSystem) (gsRun : GsRunner)
    (writeOk writeOk' : Bool) (output_file : String) :
    (PDFCombiner.combine hasPypdf gsFind fs gsRun writeOk [] output_file).ok = false ∧
    (PDFCombiner.combine hasPypdf gsFind fs gsRun writeOk [] output_file).written = none ∧
    (PDFCombiner.combine hasPypdf gsFind fs gsRun writeOk [] output_file).gsInvoked = false ∧
    (PDFCombiner.combine_pages hasPypdf' writeOk' []).ok = false ∧
    (PDFCombiner.combine_pages hasPypdf' writeOk' []).written = none ∧
    (PDFCombiner.combine_pages hasPypdf' writeOk' []).gsInvoked = false := by
  refine ⟨?_, ?_, ?_, ?_, ?_, ?_⟩ <;>
    simp [PDFCombiner.combine, PDFCombiner.combine_pages]

/-- C5: when opening the reader fails (`fs file_path = none`),
`_import_pdf_pages` leaves the whole app state — the page list, the
open-reader list, and every previously imported entry — unchanged, queues no
tasks, and shows an error notice. -/
theorem import_open_failure_leaves_state_unchanged (fs : FileSystem)
    (gs_path : Option String) (st : AppState) (file_path : String)
    (hfail : fs file_path = none) :
    (BuckUtilsApp._import_pdf_pages true fs gs_path st file_path).state = st ∧
    (BuckUtilsApp._import_pdf_pages true fs gs_path st file_path).tasks = [] ∧
    (BuckUtilsApp._import_pdf_pages true fs gs_path st file_path).errors ≠ [] := by
  refine ⟨?_, ?_, ?_⟩ <;> simp [BuckUtilsApp._import_pdf_pages, hfail]

/-- Witness for C5 at a concrete failing file. -/
theorem import_open_failure_leaves_state_unchanged_check :
    ((fun _ : String => (none : Option (List PageObject))) "bad.pdf" = none) ∧
    ((BuckUtilsApp._import_pdf_pages true (fun _ => none) none ⟨[], []⟩ "bad.pdf").state =
       (⟨[], []⟩ : AppState) ∧
     (BuckUtilsApp._import_pdf_pages true (fun _ => none) none ⟨[], []⟩ "bad.pdf").tasks = [] ∧
     (BuckUtilsApp._import_pdf_pages true (fun _ => none) none ⟨[], []⟩ "bad.pdf").errors ≠ []) :=
  ⟨rfl, import_open_failure_leaves_state_unchanged (fun _ => none) none ⟨[], []⟩ "bad.pdf" rfl⟩

/-- C6: with no Ghostscript executable (`gs_path = None`), the preview worker
returns its text preview and no image path, for every file system, extractor
and runner — missing Ghostscript degrades the preview to text-only. -/
theorem preview_without_ghostscript_is_text_only (fs : FileSystem)
    (extract : Extractor) (gsRun : GsRunner) (tmpDir file_path : String)
    (page_index : Nat) :
    _generate_preview_for_page fs extract gsRun tmpDir (file_path, page_index, none) =
      (file_path, page_index, workerPreviewText fs extract file_path page_index, none) :=
  rfl

/-- C7: for a non-empty input list, `PDFCombiner.combine` dispatches in a
fixed fallback order: pypdf when available, otherwise Ghostscript when found,
otherwise it shows an error and returns `False` having written nothing. -/
theorem combine_backend_fallback_order (gsFind : Option String) (p : String)
    (fs : FileSystem) (gsRun : GsRunner) (writeOk : Bool)
    (input_files : List String) (output_file : String) (hne : input_files ≠ []) :
    PDFCombiner.combine true gsFind fs gsRun writeOk input_files output_file =
      PDFCombiner.combine_with_pypdf2 fs writeOk input_files ∧
    PDFCombiner.combine false (some p) fs gsRun writeOk input_files output_file =
      PDFCombiner.combine_with_ghostscript gsRun input_files output_file p ∧
    PDFCombiner.combine false none fs gsRun writeOk input_files output_file =
      { ok := false, written := none, gsInvoked := false,
        messages := ["No PDF library found!"] } := by
  have h : input_files.isEmpty = false := by
    cases input_files with
    | nil => exact absurd rfl hne
    | cons f rest => rfl
  refine ⟨?_, ?_, ?_⟩ <;> simp [PDFCombiner.combine, h]

/-- Witness for C7 at a concrete one-file input. -/
theorem combine_backend_fallback_order_check :
    (["a.pdf"] ≠ ([] : List String)) ∧
    (PDFCombiner.combine true (some "gs") (fun _ => none) (fun _ => .raise) true
        ["a.pdf"] "out.pdf" =
      PDFCombiner.combine_with_pypdf2 (fun _ => none) true ["a.pdf"] ∧
    PDFCombiner.combine false (some "gs") (fun _ => none) (fun _ => .raise) true
        ["a.pdf"] "out.pdf" =
      PDFCombiner.combine_with_ghostscript (fun _ => .raise) ["a.pdf"] "out.pdf" "gs" ∧
    PDFCombiner.combine false none (fun _ => none) (fun _ => .raise) true
        ["a.pdf"] "out.pdf" =
      { ok := false, written := none, gsInvoked := false,
        messages := ["No PDF library found!"] }) :=
  ⟨by decide,
   combine_backend_fallback_order (some "gs") "gs" (fun _ => none) (fun _ => .raise) true
     ["a.pdf"] "out.pdf" (by decide)⟩

/-- C9: with a truthy Ghostscript path, the preview worker's argument vector
bounds the rendering to the single page `page_index + 1` (both first and last
page), at 50 dpi with the PNG device, and the returned image path is present
only when the subprocess returned 0 and the output PNG exists — in which case
it is exactly the computed output path. -/
theorem preview_command_single_page_bounds (fs : FileSystem) (extract : Extractor)
    (gsRun : GsRunner) (tmpDir file_path : String) (page_index : Nat) (gp : String)
    (hgp : gp ≠ "") :
    ("-dFirstPage=" ++ toString (page_index + 1)) ∈
      buildGsPreviewCmd gp file_path page_index
        (previewOutputPath tmpDir file_path page_index) ∧
    ("-dLastPage=" ++ toString (page_index + 1)) ∈
      buildGsPreviewCmd gp file_path page_index
        (previewOutputPath tmpDir file_path page_index) ∧
    "-r50" ∈ buildGsPreviewCmd gp file_path page_index
        (previewOutputPath tmpDir file_path page_index) ∧
    "-sDEVICE=png16m" ∈ buildGsPreviewCmd gp file_path page_index
        (previewOutputPath tmpDir file_path page_index) ∧
    ((_generate_preview_for_page fs extract gsRun tmpDir
        (file_path, page_index, some gp)).2.2.2.isSome = true →
      gsSucceeded (gsRun (buildGsPreviewCmd gp file_path page_index
        (previewOutputPath tmpDir file_path page_index))) ∧
      (_generate_preview_for_page fs extract gsRun tmpDir
        (file_path, page_index, some gp)).2.2.2 =
        some (previewOutputPath tmpDir file_path page_index)) := by
  refine ⟨?_, ?_, ?_, ?_, ?_⟩
  · simp [buildGsPreviewCmd]
  · simp [buildGsPreviewCmd]
  · simp [buildGsPreviewCmd]
  · simp [buildGsPreviewCmd]
  · intro h
    cases hr : gsRun (buildGsPreviewCmd gp file_path page_index
        (previewOutputPath tmpDir file_path page_index)) with
    | raise =>
      simp [_generate_preview_for_page, hgp, hr] at h
    | done rc ex err =>
      by_cases hc : rc = 0 ∧ ex = true
      · refine ⟨by simp [gsSucceeded, hc], ?_⟩
        simp [_generate_preview_for_page, hgp, hr, hc]
      · simp [_generate_preview_for_page, hgp, hr] at h
        exact absurd (by simpa using h) hc

/-- Witness for C9 at a concrete task. -/
theorem preview_command_single_page_bounds_check :
    ("gs" ≠ "") ∧
    (("-dFirstPage=" ++ toString (2 + 1)) ∈
      buildGsPreviewCmd "gs" "a.pdf" 2 (previewOutputPath "/tmp" "a.pdf" 2) ∧
    ("-dLastPage=" ++ toString (2 + 1)) ∈
      buildGsPreviewCmd "gs" "a.pdf" 2 (previewOutputPath "/tmp" "a.pdf" 2) ∧
    "-r50" ∈ buildGsPreviewCmd "gs" "a.pdf" 2 (previewOutputPath "/tmp" "a.pdf" 2) ∧
    "-sDEVICE=png16m" ∈
      buildGsPreviewCmd "gs" "a.pdf" 2 (previewOutputPath "/tmp" "a.pdf" 2) ∧
    ((_generate_preview_for_page (fun _ => none) (fun _ => .failure)
        (fun _ => .done 0 true "") "/tmp" ("a.pdf", 2, some "gs")).2.2.2.isSome = true →
      gsSucceeded ((fun _ => GsExec.done 0 true "")
        (buildGsPreviewCmd "gs" "a.pdf" 2 (previewOutputPath "/tmp" "a.pdf" 2))) ∧
      (_generate_preview_for_page (fun _ => none) (fun _ => .failure)
        (fun _ => .done 0 true "") "/tmp" ("a.pdf", 2, some "gs")).2.2.2 =
        some (previewOutputPath "/tmp" "a.pdf" 2))) :=
  ⟨by decide,
   preview_command_single_page_bounds (fun _ => none) (fun _ => .failure)
     (fun _ => .done 0 true "") "/tmp" "a.pdf" 2 "gs" (by decide)⟩

/-- C4: whenever extraction yields no text (empty or whitespace-only string,
`None`, or an exception), both `_build_preview_text` and the text preview of
`_generate_preview_for_page` are exactly the fixed placeholder string. -/
theorem preview_placeholder_when_no_text (extract : Extractor) (page : PageObject)
    (fs : FileSystem) (gsRun : GsRunner) (tmpDir file_path : String)
    (page_index : Nat) (readerPages : List PageObject) (gp : Option String)
    (hno : noTextOutcome (extract page))
    (hfs : fs file_path = some readerPages)
    (hpg : readerPages[page_index]? = some page) :
    BuckUtilsApp._build_preview_text extract page = placeholderText ∧
    (_generate_preview_for_page fs extract gsRun tmpDir
      (file_path, page_index, gp)).2.2.1 = placeholderText := by
  have hc := cleanText_extracted_eq_empty extract page hno
  constructor
  · simp [BuckUtilsApp._build_preview_text, hc]
  · simp [_generate_preview_for_page, workerPreviewText, hfs, hpg, hc]

/-- Witness for C4 at a concrete page whose extraction returns `None`. -/
theorem preview_placeholder_when_no_text_check :
    noTextOutcome ((fun _ => ExtractResult.noText) 5) ∧
    ((fun _ : String => some ([5] : List PageObject)) "a.pdf" = some [5]) ∧
    (([5] : List PageObject)[0]? = some 5) ∧
    (BuckUtilsApp._build_preview_text (fun _ => ExtractResult.noText) 5 =
       placeholderText ∧
     (_generate_preview_for_page (fun _ => some [5]) (fun _ => ExtractResult.noText)
       (fun _ => .raise) "/tmp" ("a.pdf", 0, none)).2.2.1 = placeholderText) :=
  ⟨by simp [noTextOutcome], rfl, rfl,
   preview_placeholder_when_no_text (fun _ => ExtractResult.noText) 5
     (fun _ => some [5]) (fun _ => .raise) "/tmp" "a.pdf" 0 [5] none
     (by simp [noTextOutcome]) rfl rfl⟩

/-- C8: on a duplicate-free page list, `_apply_preview_result` is exactly the
pointwise update of the entry carrying the key `(file_path, page_index)`:
only that entry's `preview` and `preview_image_path` change, every other
entry, the list order, and the matched entry's remaining fields are
untouched, and a key matching no entry changes nothing. -/
theorem apply_preview_result_updates_only_matching_entry (pages : List PDFPage)
    (f : String) (i : Nat) (pv : String) (img : Option String)
    (hnd : (pages.map PDFPage.key).Nodup) :
    (BuckUtilsApp._apply_preview_result pages f i pv img).1 =
      pages.map (fun p => if p.source_path = f ∧ p.page_index = i then
        { p with preview := pv, preview_image_path := img } else p) ∧
    (((f, i) : PageKey) ∉ pages.map PDFPage.key →
      (BuckUtilsApp._apply_preview_result pages f i pv img).1 = pages) := by
  refine ⟨?_, apply_preview_result_no_match pages f i pv img⟩
  induction pages with
  | nil => rfl
  | cons p rest ih =>
    simp only [List.map_cons, List.nodup_cons] at hnd
    by_cases hp : p.source_path = f ∧ p.page_index = i
    · have hkey : ((f, i) : PageKey) ∉ rest.map PDFPage.key := by
        have : PDFPage.key p = (f, i) := by simp [PDFPage.key, hp.1, hp.2]
        rw [← this]
        exact hnd.1
      simp only [BuckUtilsApp._apply_preview_result, if_pos hp, List.map_cons]
      rw [map_preview_update_no_match rest f i pv img hkey]
    · simp only [BuckUtilsApp._apply_preview_result, if_neg hp, List.map_cons]
      rw [← ih hnd.2]

/-- Witness for C8 at a concrete two-entry list with distinct keys. -/
theorem apply_preview_result_updates_only_matching_entry_check :
    ((([⟨"a.pdf", 0, "l0", 7, "p0", none⟩,
        ⟨"a.pdf", 1, "l1", 8, "p1", none⟩] : List PDFPage).map PDFPage.key).Nodup) ∧
    ((BuckUtilsApp._apply_preview_result
        [⟨"a.pdf", 0, "l0", 7, "p0", none⟩, ⟨"a.pdf", 1, "l1", 8, "p1", none⟩]
        "a.pdf" 1 "new" (some "/tmp/x.png")).1 =
      ([⟨"a.pdf", 0, "l0", 7, "p0", none⟩,
        ⟨"a.pdf", 1, "l1", 8, "p1", none⟩] : List PDFPage).map
        (fun p => if p.source_path = "a.pdf" ∧ p.page_index = 1 then
          { p with preview := "new", preview_image_path := some "/tmp/x.png" } else p) ∧
     (((("a.pdf", 1)) : PageKey) ∉
        ([⟨"a.pdf", 0, "l0", 7, "p0", none⟩,
          ⟨"a.pdf", 1, "l1", 8, "p1", none⟩] : List PDFPage).map PDFPage.key →
      (BuckUtilsApp._apply_preview_result
        [⟨"a.pdf", 0, "l0", 7, "p0", none⟩, ⟨"a.pdf", 1, "l1", 8, "p1", none⟩]
        "a.pdf" 1 "new" (some "/tmp/x.png")).1 =
      [⟨"a.pdf", 0, "l0", 7, "p0", none⟩, ⟨"a.pdf", 1, "l1", 8, "p1", none⟩])) :=
  ⟨by decide,
   apply_preview_result_updates_only_matching_entry
     [⟨"a.pdf", 0, "l0", 7, "p0", none⟩, ⟨"a.pdf", 1, "l1", 8, "p1", none⟩]
     "a.pdf" 1 "new" (some "/tmp/x.png") (by decide)⟩

/-- C3: with pypdf available and a readable file, `_import_pdf_pages` skips
every page whose composite key (source path, zero-based index) is already in
the page list: the imported list keeps its keys duplicate-free, and
re-importing a file all of whose page keys are already present appends no
entry. -/
theorem import_pdf_pages_keeps_keys_nodup (fs : FileSystem)
    (gs_path : Option String) (st : AppState) (file_path : String)
    (readerPages : List PageObject)
    (hfs : fs file_path = some readerPages)
    (hnd : (st.pages.map PDFPage.key).Nodup) :
    (((BuckUtilsApp._import_pdf_pages true fs gs_path st file_path).state.pages.map
        PDFPage.key).Nodup) ∧
    ((∀ i, i < readerPages.length →
        ((file_path, i) : PageKey) ∈ st.pages.map PDFPage.key) →
      (BuckUtilsApp._import_pdf_pages true fs gs_path st file_path).state.pages =
        st.pages) := by
  have hstate :
      (BuckUtilsApp._import_pdf_pages true fs gs_path st file_path).state.pages =
        st.pages ++ BuckUtilsApp.importNewPages file_path
          (st.pages.map PDFPage.key) readerPages := by
    simp [BuckUtilsApp._import_pdf_pages, hfs]
  constructor
  · rw [hstate, List.map_append, List.nodup_append]
    refine ⟨hnd, importNewPages_key_nodup _ _ _, ?_⟩
    intro k hk hknew
    exact importNewPages_key_not_in_existing file_path
      (st.pages.map PDFPage.key) readerPages k hknew hk
  · intro hall
    rw [hstate, importNewPages_nil_of_all_present file_path
      (st.pages.map PDFPage.key) readerPages hall, List.append_nil]

/-- Witness for C3: re-importing an already imported one-page file. -/
theorem import_pdf_pages_keeps_keys_nodup_check :
    ((fun p : String => if p = "a.pdf" then some ([10] : List PageObject) else none)
        "a.pdf" = some [10]) ∧
    ((([⟨"a.pdf", 0, "a.pdf - Page 1", 10, "p", none⟩] : List PDFPage).map
        PDFPage.key).Nodup) ∧
    ((((BuckUtilsApp._import_pdf_pages true
        (fun p => if p = "a.pdf" then some [10] else none) none
        ⟨[⟨"a.pdf", 0, "a.pdf - Page 1", 10, "p", none⟩], [[10]]⟩
        "a.pdf").state.pages.map PDFPage.key).Nodup) ∧
     ((∀ i, i < ([10] : List PageObject).length →
         ((("a.pdf", i)) : PageKey) ∈
           ([⟨"a.pdf", 0, "a.pdf - Page 1", 10, "p", none⟩] : List PDFPage).map
             PDFPage.key) →
       (BuckUtilsApp._import_pdf_pages true
         (fun p => if p = "a.pdf" then some [10] else none) none
         ⟨[⟨"a.pdf", 0, "a.pdf - Page 1", 10, "p", none⟩], [[10]]⟩
         "a.pdf").state.pages =
         [⟨"a.pdf", 0, "a.pdf - Page 1", 10, "p", none⟩])) :=
  ⟨by decide, by decide,
   import_pdf_pages_keeps_keys_nodup
     (fun p => if p = "a.pdf" then some [10] else none) none
     ⟨[⟨"a.pdf", 0, "a.pdf - Page 1", 10, "p", none⟩], [[10]]⟩
     "a.pdf" [10] (by decide) (by decide)⟩

/-- C10: on a duplicate-free page list, every reorder operation (`_move_up`,
`_move_down`, `_on_drag_motion`) produces a permutation of the list — the
multiset of entries, hence the no-duplicate key invariant, is preserved —
and `_move_up` with the first entry selected and `_move_down` with the last
entry selected leave the list unchanged. -/
theorem reorder_operations_preserve_entries (pages : List PDFPage) (idx : Nat)
    (rest rest' rest'' : List Nat) (s : Nat) (target : Int)
    (hnd : (pages.map PDFPage.key).Nodup) :
    (BuckUtilsApp._move_up pages (idx :: rest)).Perm pages ∧
    (BuckUtilsApp._move_down pages (idx :: rest)).Perm pages ∧
    ((BuckUtilsApp._on_drag_motion pages (some s) target).1).Perm pages ∧
    BuckUtilsApp._move_up pages (0 :: rest') = pages ∧
    BuckUtilsApp._move_down pages ((pages.length - 1) :: rest'') = pages ∧
    ((BuckUtilsApp._move_up pages (idx :: rest)).map PDFPage.key).Nodup ∧
    ((BuckUtilsApp._move_down pages (idx :: rest)).map PDFPage.key).Nodup ∧
    (((BuckUtilsApp._on_drag_motion pages (some s) target).1).map PDFPage.key).Nodup := by
  have pu : (BuckUtilsApp._move_up pages (idx :: rest)).Perm pages := by
    unfold BuckUtilsApp._move_up
    by_cases h : idx = 0
    · simp [h]
    · simp only [if_neg h]
      exact swapEntries_perm pages idx (idx - 1)
  have pd : (BuckUtilsApp._move_down pages (idx :: rest)).Perm pages := by
    unfold BuckUtilsApp._move_down
    by_cases h : idx = pages.length - 1
    · simp [h]
    · simp only [if_neg h]
      exact swapEntries_perm pages idx (idx + 1)
  have pm : ((BuckUtilsApp._on_drag_motion pages (some s) target).1).Perm pages := by
    unfold BuckUtilsApp._on_drag_motion
    by_cases h : target = (s : Int) ∨ target < 0 ∨ target ≥ (pages.length : Int)
    · simp [h]
    · simp only [if_neg h]
      exact swapEntries_perm pages s target.toNat
  refine ⟨pu, pd, pm, by simp [BuckUtilsApp._move_up], by simp [BuckUtilsApp._move_down],
    ?_, ?_, ?_⟩
  · exact ((pu.map PDFPage.key).nodup_iff).mpr hnd
  · exact ((pd.map PDFPage.key).nodup_iff).mpr hnd
  · exact ((pm.map PDFPage.key).nodup_iff).mpr hnd

/-- Witness for C10 at a concrete two-entry list. -/
theorem reorder_operations_preserve_entries_check :
    ((([⟨"a.pdf", 0, "l0", 7, "p0", none⟩,
        ⟨"a.pdf", 1, "l1", 8, "p1", none⟩] : List PDFPage).map PDFPage.key).Nodup) ∧
    ((BuckUtilsApp._move_up
        [⟨"a.pdf", 0, "l0", 7, "p0", none⟩, ⟨"a.pdf", 1, "l1", 8, "p1", none⟩]
        (1 :: [])).Perm
      [⟨"a.pdf", 0, "l0", 7, "p0", none⟩, ⟨"a.pdf", 1, "l1", 8, "p1", none⟩] ∧
    (BuckUtilsApp._move_down
        [⟨"a.pdf", 0, "l0", 7, "p0", none⟩, ⟨"a.pdf", 1, "l1", 8, "p1", none⟩]
        (1 :: [])).Perm
      [⟨"a.pdf", 0, "l0", 7, "p0", none⟩, ⟨"a.pdf", 1, "l1", 8, "p1", none⟩] ∧
    ((BuckUtilsApp._on_drag_motion
        [⟨"a.pdf", 0, "l0", 7, "p0", none⟩, ⟨"a.pdf", 1, "l1", 8, "p1", none⟩]
        (some 0) 1).1).Perm
      [⟨"a.pdf", 0, "l0", 7, "p0", none⟩, ⟨"a.pdf", 1, "l1", 8, "p1", none⟩] ∧
    BuckUtilsApp._move_up
        [⟨"a.pdf", 0, "l0", 7, "p0", none⟩, ⟨"a.pdf", 1, "l1", 8, "p1", none⟩]
        (0 :: []) =
      [⟨"a.pdf", 0, "l0", 7, "p0", none⟩, ⟨"a.pdf", 1, "l1", 8, "p1", none⟩] ∧
    BuckUtilsApp._move_down
        [⟨"a.pdf", 0, "l0", 7, "p0", none⟩, ⟨"a.pdf", 1, "l1", 8, "p1", none⟩]
        ((([⟨"a.pdf", 0, "l0", 7, "p0", none⟩,
            ⟨"a.pdf", 1, "l1", 8, "p1", none⟩] : List PDFPage).length - 1) :: []) =
      [⟨"a.pdf", 0, "l0", 7, "p0", none⟩, ⟨"a.pdf", 1, "l1", 8, "p1", none⟩] ∧
    ((BuckUtilsApp._move_up
        [⟨"a.pdf", 0, "l0", 7, "p0", none⟩, ⟨"a.pdf", 1, "l1", 8, "p1", none⟩]
        (1 :: [])).map PDFPage.key).Nodup ∧
    ((BuckUtilsApp._move_down
        [⟨"a.pdf", 0, "l0", 7, "p0", none⟩, ⟨"a.pdf", 1, "l1", 8, "p1", none⟩]
        (1 :: [])).map PDFPage.key).Nodup ∧
    (((BuckUtilsApp._on_drag_motion
        [⟨"a.pdf", 0, "l0", 7, "p0", none⟩, ⟨"a.pdf", 1, "l1", 8, "p1", none⟩]
        (some 0) 1).1).map PDFPage.key).Nodup) :=
  ⟨by decide,
   reorder_operations_preserve_entries
     [⟨"a.pdf", 0, "l0", 7, "p0", none⟩, ⟨"a.pdf", 1, "l1", 8, "p1", none⟩]
     1 [] [] [] 0 1 (by decide)⟩
